import Mathlib

/-!
Verification of the hybrid-agent core of the agent-assistant repository.

The definitions below are a shallow embedding of the Python sources
`src/agent/memory.py`, `src/agent/router.py`, `src/agent/llm_system.py`
and `src/agent/workflow.py`.  Python functions become Lean functions,
mutable object state becomes explicit state records, `raise` becomes
`Except`, and the external collaborators (model invocations, probe
calls, tool execution) become oracle parameters.

Numeric conventions: Python integers are `Int` where subtraction can go
negative (token budgets) and `Nat` for counters that only count up.  The
token estimator computes `int(total_words * 1.3)` with IEEE doubles; for
every word total that occurs in practice (far below 2 to the 50) this
equals `13 * totalWords / 10` in integer floor division, which is how it
is embedded here.
-/

namespace AgentAssistant

/-- The two inference tiers, the Python strings "local" and "remote". -/
inductive Tier
  | localTier
  | remoteTier
  deriving DecidableEq, Repr

/-- Message roles: `SystemMessage`, `HumanMessage`, `AIMessage`, `ToolMessage`
from langchain.  `isinstance(msg, SystemMessage)` becomes a role test. -/
inductive Role
  | system
  | human
  | ai
  | tool
  deriving DecidableEq, Repr

/-- A conversation message: its role, its content string and how many tool
calls it carries (the code only counts them, 50 pseudo-words each). -/
structure Message where
  role : Role
  content : String
  toolCallCount : Nat
  deriving DecidableEq, Repr

/-- Count of maximal non-whitespace runs in a character list; the Boolean
records whether the previous character was inside a word. -/
def wordCountAux : List Char → Bool → Nat
  | [], _ => 0
  | c :: rest, inWord =>
    if c.isWhitespace then wordCountAux rest false
    else (if inWord then 0 else 1) + wordCountAux rest true

/-- `len(s.split())` in Python: the number of maximal whitespace-separated
words of `s`. -/
def wordCount (s : String) : Nat :=
  wordCountAux s.data false

/-- Body of `MemoryManager.estimate_tokens`: total words over all message
contents plus 50 pseudo-words per tool call. -/
def totalWords (messages : List Message) : Nat :=
  messages.foldl (fun acc m => acc + wordCount m.content + 50 * m.toolCallCount) 0

/-- `MemoryManager.estimate_tokens` (memory.py lines 60 to 83):
`int(total_words * 1.3)`, embedded as floor of `13 * totalWords / 10`. -/
def estimate_tokens (messages : List Message) : Nat :=
  13 * totalWords messages / 10

/-- `isinstance(msg, SystemMessage)` as a Boolean test. -/
def isSystemMsg (m : Message) : Bool :=
  m.role = Role.system

/-- The mutable configuration fields read in `MemoryManager.__init__`:
`agent.memory.strategy`, `agent.memory.max_messages` and
`agent.memory.reserve_tokens` (`summarize_threshold` is read but never
used by any method embedded here).  `maxMessages = 0` models a falsy
configured value. -/
structure MemoryManager where
  strategy : String
  maxMessages : Nat
  reserveTokens : Int
  deriving DecidableEq, Repr

/-- Context-window and max-output limits of one model, as found in the
configuration tables searched by `get_model_limits`. -/
structure ModelLimits where
  contextWindow : Int
  maxOutputTokens : Int
  deriving DecidableEq, Repr

/-- `MemoryManager.get_model_limits` (memory.py lines 20 to 58): look the
model id up in the per-tier configuration table, defaulting to
(8192, 2048) when absent.  The table search over the config lists is
abstracted into a lookup function per tier. -/
def get_model_limits (table : String → Option ModelLimits) (modelId : String) : ModelLimits :=
  match table modelId with
  | some l => l
  | none => ⟨8192, 2048⟩

/-- The loop of `MemoryManager._sliding_window_truncate` (memory.py lines
167 to 179): walk the reversed conversation, and while a message still
fits the remaining budget insert it at position `systemCount` of the
accumulated result (`result.insert(len(system_msgs), msg)`); stop at the
first message that does not fit. -/
def slidingWindowLoop (systemCount : Nat) (convRev : List Message)
    (result : List Message) (remaining : Int) : List Message :=
  match convRev with
  | [] => result
  | msg :: rest =>
    if (estimate_tokens [msg] : Int) ≤ remaining then
      slidingWindowLoop systemCount rest (result.insertIdx systemCount msg)
        (remaining - estimate_tokens [msg])
    else
      result

/-- `MemoryManager._sliding_window_truncate` (memory.py lines 140 to 190):
separate system messages from conversation, keep a suffix of the
conversation by walking it most-recent-first against the remaining
budget, then reassemble as
`system_msgs + list(reversed([m for m in result if m not in system_msgs]))`. -/
def sliding_window_truncate (messages : List Message) (targetTokens : Int) : List Message :=
  let systemMsgs := messages.filter (fun m => isSystemMsg m)
  let conversation := messages.filter (fun m => !(isSystemMsg m))
  let systemTokens : Int := estimate_tokens systemMsgs
  let result := slidingWindowLoop systemMsgs.length conversation.reverse systemMsgs
    (targetTokens - systemTokens)
  systemMsgs ++ (result.filter (fun m => !(decide (m ∈ systemMsgs)))).reverse

/-- `MemoryManager.truncate_messages` (memory.py lines 85 to 138): empty
input returned as is; non-positive available budget returns
`messages[:1]`; within budget returns the input unchanged; otherwise the
configured strategy is applied, and every strategy branch (including the
unimplemented `summarize` and `hybrid` ones and the unknown-strategy
fallback) calls `_sliding_window_truncate`. -/
def truncate_messages (mm : MemoryManager) (messages : List Message)
    (contextWindow maxOutputTokens : Int) : List Message :=
  if messages = [] then messages
  else
    let availableTokens := contextWindow - maxOutputTokens - mm.reserveTokens
    if availableTokens ≤ 0 then messages.take 1
    else if (estimate_tokens messages : Int) ≤ availableTokens then messages
    else if mm.strategy = "sliding_window" then sliding_window_truncate messages availableTokens
    else if mm.strategy = "summarize" then sliding_window_truncate messages availableTokens
    else if mm.strategy = "hybrid" then sliding_window_truncate messages availableTokens
    else sliding_window_truncate messages availableTokens

/-- `MemoryManager.manage_context` (memory.py lines 192 to 224): look up
the model limits, apply the `max_messages` cap (system messages plus the
most recent `max_messages` others) when the count exceeds it, then
truncate to the context window. -/
def manage_context (mm : MemoryManager) (limits : Tier → String → Option ModelLimits)
    (messages : List Message) (modelId : String) (tier : Tier) : List Message :=
  let l := get_model_limits (limits tier) modelId
  let messages :=
    if mm.maxMessages ≠ 0 ∧ messages.length > mm.maxMessages then
      let systemMsgs := messages.filter (fun m => isSystemMsg m)
      let otherMsgs := messages.filter (fun m => !(isSystemMsg m))
      systemMsgs ++ otherMsgs.drop (otherMsgs.length - mm.maxMessages)
    else messages
  truncate_messages mm messages l.contextWindow l.maxOutputTokens

/-- Inserting at the length of a prefix appends to the front of the rest. -/
theorem insertIdx_length_append (sys acc : List Message) (m : Message) :
    (sys ++ acc).insertIdx sys.length m = sys ++ m :: acc := by
  induction sys with
  | nil => rfl
  | cons a t ih => simp [List.insertIdx_succ_cons, ih]

/-- When the accumulator has the system messages as a prefix, the
sliding-window loop keeps that prefix intact and only prepends
conversation messages behind it. -/
theorem slidingWindowLoop_shape (sys : List Message) (convRev acc : List Message)
    (remaining : Int) :
    ∃ acc2 : List Message,
      slidingWindowLoop sys.length convRev (sys ++ acc) remaining = sys ++ acc2
        ∧ ∀ m ∈ acc2, m ∈ acc ∨ m ∈ convRev := by
  induction convRev generalizing acc remaining with
  | nil => exact ⟨acc, by rw [slidingWindowLoop], fun m hm => Or.inl hm⟩
  | cons msg rest ih =>
    rw [slidingWindowLoop]
    by_cases h : (estimate_tokens [msg] : Int) ≤ remaining
    · rw [if_pos h, insertIdx_length_append]
      obtain ⟨acc2, heq, hmem⟩ := ih (msg :: acc) (remaining - estimate_tokens [msg])
      refine ⟨acc2, heq, fun m hm => ?_⟩
      rcases hmem m hm with h1 | h2
      · rcases List.mem_cons.mp h1 with he | ha
        · exact Or.inr (by simp [he])
        · exact Or.inl ha
      · exact Or.inr (List.mem_cons_of_mem _ h2)
    · rw [if_neg h]
      exact ⟨acc, rfl, fun m hm => Or.inl hm⟩

/-- When the input list is non-empty, the budget is positive and the
estimate exceeds it, `truncate_messages` runs the sliding-window
truncation, for every configured strategy string. -/
theorem truncate_messages_overflow (mm : MemoryManager) (messages : List Message)
    (cw mo : Int) (hne : messages ≠ [])
    (hpos : 0 < cw - mo - mm.reserveTokens)
    (hover : cw - mo - mm.reserveTokens < (estimate_tokens messages : Int)) :
    truncate_messages mm messages cw mo
      = sliding_window_truncate messages (cw - mo - mm.reserveTokens) := by
  simp only [truncate_messages, if_neg hne, if_neg (not_le.mpr hpos), if_neg (not_le.mpr hover)]
  split_ifs <;> rfl

/-- The sliding-window truncation always returns the system messages of
the input, in their original relative order, at the front, followed only
by non-system messages. -/
theorem sliding_window_truncate_system_front (messages : List Message) (t : Int) :
    ∃ rest, sliding_window_truncate messages t
        = messages.filter (fun m => isSystemMsg m) ++ rest
      ∧ ∀ m ∈ rest, m.role ≠ Role.system := by
  obtain ⟨acc2, heq, hmem⟩ := slidingWindowLoop_shape
    (messages.filter (fun m => isSystemMsg m))
    (messages.filter (fun m => !(isSystemMsg m))).reverse []
    (t - (estimate_tokens (messages.filter (fun m => isSystemMsg m)) : Int))
  rw [List.append_nil] at heq
  refine ⟨(acc2.filter (fun m =>
      !(decide (m ∈ messages.filter (fun m => isSystemMsg m))))).reverse, ?_, ?_⟩
  · have hsysnil : (messages.filter (fun m => isSystemMsg m)).filter
        (fun m => !(decide (m ∈ messages.filter (fun m => isSystemMsg m)))) = [] := by
      rw [List.filter_eq_nil_iff]
      intro a ha
      simp [ha]
    simp only [sliding_window_truncate]
    rw [heq, List.filter_append, hsysnil, List.nil_append]
  · intro m hm
    have hm2 : m ∈ acc2 := List.mem_of_mem_filter (List.mem_reverse.mp hm)
    rcases hmem m hm2 with h | h
    · exact absurd h (List.not_mem_nil m)
    · have hconv : m ∈ messages.filter (fun m => !(isSystemMsg m)) := List.mem_reverse.mp h
      have := List.of_mem_filter hconv
      simp only [isSystemMsg, Bool.not_eq_true', decide_eq_false_iff_not] at this
      exact this

/-- C6 counterexample: with context window 1, max output 1 and the default
reserve of 1000 the available budget is negative, so `truncate_messages`
returns `messages[:1]` and drops a system message that is not first:
the claimed system-message preservation fails for this configuration. -/
theorem c6_system_preservation_cex :
    truncate_messages ⟨"sliding_window", 20, 1000⟩
      [⟨Role.human, "hi", 0⟩, ⟨Role.system, "rules", 0⟩] 1 1
      = [⟨Role.human, "hi", 0⟩] := by decide

/-- C6 amended: whenever the available budget is positive and the
estimated token count exceeds it, so that sliding-window truncation
actually runs, `truncate_messages` retains all system messages, in their
original relative order, at the front of the returned list, followed
only by non-system messages. -/
theorem c6_system_preservation_amended (mm : MemoryManager) (messages : List Message)
    (cw mo : Int) (hne : messages ≠ [])
    (hpos : 0 < cw - mo - mm.reserveTokens)
    (hover : cw - mo - mm.reserveTokens < (estimate_tokens messages : Int)) :
    ∃ rest, truncate_messages mm messages cw mo
        = messages.filter (fun m => isSystemMsg m) ++ rest
      ∧ ∀ m ∈ rest, m.role ≠ Role.system := by
  rw [truncate_messages_overflow mm messages cw mo hne hpos hover]
  exact sliding_window_truncate_system_front messages (cw - mo - mm.reserveTokens)

/-- C6 amended witness: a concrete overflowing history where the theorem
applies and the system message stays in front. -/
theorem c6_system_preservation_amended_witness :
    (([⟨Role.system, "a b", 0⟩, ⟨Role.human, "c d e f g h", 0⟩,
        ⟨Role.human, "i j k l m n o p", 0⟩] : List Message) ≠ [])
    ∧ ((0:Int) < 1013 - 3 - 1000)
    ∧ ((1013:Int) - 3 - 1000
        < (estimate_tokens [⟨Role.system, "a b", 0⟩, ⟨Role.human, "c d e f g h", 0⟩,
            ⟨Role.human, "i j k l m n o p", 0⟩] : Int))
    ∧ ∃ rest, truncate_messages ⟨"sliding_window", 20, 1000⟩
        [⟨Role.system, "a b", 0⟩, ⟨Role.human, "c d e f g h", 0⟩,
          ⟨Role.human, "i j k l m n o p", 0⟩] 1013 3
        = ([⟨Role.system, "a b", 0⟩, ⟨Role.human, "c d e f g h", 0⟩,
            ⟨Role.human, "i j k l m n o p", 0⟩] : List Message).filter
            (fun m => isSystemMsg m) ++ rest
      ∧ ∀ m ∈ rest, m.role ≠ Role.system :=
  ⟨by decide, by decide, by decide,
    c6_system_preservation_amended ⟨"sliding_window", 20, 1000⟩ _ 1013 3
      (by decide) (by decide) (by decide)⟩

/-- C7 counterexample: with `max_messages = 1`, a two-message history that
is far below the token budget is still changed by `manage_context` (the
older message is dropped by the count cap), so the claimed no-op
behavior under the budget fails. -/
theorem c7_idempotence_cex :
    ((estimate_tokens [⟨Role.human, "a", 0⟩, ⟨Role.human, "b", 0⟩] : Int)
        ≤ 10000 - 100 - 1000)
    ∧ manage_context ⟨"sliding_window", 1, 1000⟩ (fun _ _ => some ⟨10000, 100⟩)
        [⟨Role.human, "a", 0⟩, ⟨Role.human, "b", 0⟩] "m" Tier.localTier
      = [⟨Role.human, "b", 0⟩] := by decide

/-- C7 amended: when the history length is within the `max_messages` cap
and the positive available budget is not exceeded by the token estimate,
`manage_context` returns the history unchanged, and applying it twice
equals applying it once. -/
theorem c7_idempotence_amended (mm : MemoryManager)
    (limits : Tier → String → Option ModelLimits) (messages : List Message)
    (modelId : String) (tier : Tier)
    (hcap : mm.maxMessages = 0 ∨ messages.length ≤ mm.maxMessages)
    (hpos : 0 < (get_model_limits (limits tier) modelId).contextWindow
        - (get_model_limits (limits tier) modelId).maxOutputTokens - mm.reserveTokens)
    (hfit : (estimate_tokens messages : Int)
        ≤ (get_model_limits (limits tier) modelId).contextWindow
          - (get_model_limits (limits tier) modelId).maxOutputTokens - mm.reserveTokens) :
    manage_context mm limits messages modelId tier = messages
      ∧ manage_context mm limits (manage_context mm limits messages modelId tier) modelId tier
        = manage_context mm limits messages modelId tier := by
  have hno : ¬(mm.maxMessages ≠ 0 ∧ messages.length > mm.maxMessages) := by
    rcases hcap with h | h
    · intro hc; exact hc.1 h
    · intro hc; exact absurd hc.2 (not_lt.mpr h)
  have h1 : manage_context mm limits messages modelId tier = messages := by
    unfold manage_context
    rw [if_neg hno]
    by_cases hne : messages = []
    · rw [hne]; rfl
    · simp only [truncate_messages, if_neg hne, if_neg (not_le.mpr hpos), if_pos hfit]
  exact ⟨h1, by rw [h1]; exact h1⟩

/-- C7 amended witness: a concrete short in-budget history is left
unchanged by one and by two applications. -/
theorem c7_idempotence_amended_witness :
    ((20:Nat) = 0 ∨ ([⟨Role.human, "a", 0⟩, ⟨Role.human, "b", 0⟩] : List Message).length ≤ 20)
    ∧ ((0:Int) < (get_model_limits ((fun _ _ => some ⟨10000, 100⟩) Tier.localTier) "m").contextWindow
        - (get_model_limits ((fun _ _ => some ⟨10000, 100⟩) Tier.localTier) "m").maxOutputTokens - 1000)
    ∧ (manage_context ⟨"sliding_window", 20, 1000⟩ (fun _ _ => some ⟨10000, 100⟩)
        [⟨Role.human, "a", 0⟩, ⟨Role.human, "b", 0⟩] "m" Tier.localTier
        = [⟨Role.human, "a", 0⟩, ⟨Role.human, "b", 0⟩]
      ∧ manage_context ⟨"sliding_window", 20, 1000⟩ (fun _ _ => some ⟨10000, 100⟩)
          (manage_context ⟨"sliding_window", 20, 1000⟩ (fun _ _ => some ⟨10000, 100⟩)
            [⟨Role.human, "a", 0⟩, ⟨Role.human, "b", 0⟩] "m" Tier.localTier) "m" Tier.localTier
        = manage_context ⟨"sliding_window", 20, 1000⟩ (fun _ _ => some ⟨10000, 100⟩)
            [⟨Role.human, "a", 0⟩, ⟨Role.human, "b", 0⟩] "m" Tier.localTier) :=
  ⟨by decide, by decide,
    c7_idempotence_amended ⟨"sliding_window", 20, 1000⟩ (fun _ _ => some ⟨10000, 100⟩)
      [⟨Role.human, "a", 0⟩, ⟨Role.human, "b", 0⟩] "m" Tier.localTier
      (by decide) (by decide) (by decide)⟩

/-- C10: for a non-empty history, when the computed available budget is
non-positive, `truncate_messages` returns exactly the first message of
the input, regardless of message roles. -/
theorem c10_degraded_first_message (mm : MemoryManager) (messages : List Message)
    (cw mo : Int) (hne : messages ≠ [])
    (hdeg : cw - mo - mm.reserveTokens ≤ 0) :
    truncate_messages mm messages cw mo = [messages.head hne] := by
  cases messages with
  | nil => exact absurd rfl hne
  | cons a t => simp [truncate_messages, hdeg]

/-- C10 witness: a concrete degraded configuration keeps only the first
message, here a human message ahead of a system message. -/
theorem c10_degraded_first_message_witness :
    (([⟨Role.human, "hello", 0⟩, ⟨Role.system, "rules", 0⟩] : List Message) ≠ [])
    ∧ ((4:Int) - 2 - 1000 ≤ 0)
    ∧ truncate_messages ⟨"sliding_window", 20, 1000⟩
        [⟨Role.human, "hello", 0⟩, ⟨Role.system, "rules", 0⟩] 4 2
      = [(([⟨Role.human, "hello", 0⟩, ⟨Role.system, "rules", 0⟩] : List Message)).head (by decide)] :=
  ⟨by decide, by decide,
    c10_degraded_first_message ⟨"sliding_window", 20, 1000⟩
      [⟨Role.human, "hello", 0⟩, ⟨Role.system, "rules", 0⟩] 4 2 (by decide) (by decide)⟩

/-- Character-list test for Python `a == b` on the first characters of a
needle against a haystack: the needle is an initial segment. -/
def leadsChars : List Char → List Char → Bool
  | [], _ => true
  | _ :: _, [] => false
  | a :: as, b :: bs => a == b && leadsChars as bs

/-- Occurrence of a needle anywhere in a haystack, character-wise. -/
def substringChars : List Char → List Char → Bool
  | needle, [] => needle.isEmpty
  | needle, c :: rest => leadsChars needle (c :: rest) || substringChars needle rest

/-- Python `sub in s` on strings. -/
def pyIn (sub s : String) : Bool :=
  substringChars sub.data s.data

/-- Python `s.lower()`. -/
def pyLower (s : String) : String :=
  String.mk (s.data.map Char.toLower)

/-- `any(kw in query_lower for kw in kws)`. -/
def containsAny (ql : String) (kws : List String) : Bool :=
  kws.any (fun kw => pyIn kw ql)

/-- `TaskComplexity` (router.py lines 14 to 19). -/
inductive TaskComplexity
  | simple
  | medium
  | complex
  | code
  deriving DecidableEq, Repr

/-- `TaskClassification` (router.py lines 22 to 36). -/
structure TaskClassification where
  complexity : TaskComplexity
  reasoning : String
  requiresTools : Bool
  estimatedTokens : Int
  deriving DecidableEq, Repr

/-- The simple-pattern keywords of `Router._simple_classify`. -/
def simpleKeywords : List String :=
  ["hello", "hi", "hey", "what is", "define", "who is", "when was"]

/-- The code-pattern keywords of `Router._simple_classify`. -/
def codeKeywords : List String :=
  ["code", "function", "debug", "implement", "script", "program"]

/-- The complex-pattern keywords of `Router._simple_classify`. -/
def complexKeywords : List String :=
  ["analyze", "explain in detail", "compare", "evaluate", "design", "create a"]

/-- The tool-requirement keywords of `Router._simple_classify`. -/
def toolKeywords : List String :=
  ["search", "find", "look up", "browse", "calculate", "run", "execute", "file"]

/-- `Router._simple_classify` (router.py lines 98 to 142): the
deterministic keyword/length fallback classifier. -/
def simple_classify (query : String) : TaskClassification :=
  let queryLower := pyLower query
  let length := wordCount query
  let cx : TaskComplexity × Int :=
    if decide (length < 10) && containsAny queryLower simpleKeywords then
      (TaskComplexity.simple, 50)
    else if containsAny queryLower codeKeywords then
      (TaskComplexity.code, 300)
    else if decide (length > 50) || containsAny queryLower complexKeywords then
      (TaskComplexity.complex, 800)
    else
      (TaskComplexity.medium, 200)
  { complexity := cx.1
    reasoning := "Fallback keyword-based classification"
    requiresTools := containsAny queryLower toolKeywords
    estimatedTokens := cx.2 }

/-- The collaborator state read by `Router.route`: tier availability from
the LLM system, `config.prefer_local` and `llm.routing.force_model`. -/
structure RouterEnv where
  localAvailable : Bool
  remoteAvailable : Bool
  preferLocal : Bool
  configForceModel : Option String
  deriving DecidableEq, Repr

/-- Python `a or b` on optional strings: an empty string is falsy. -/
def pyOrStr (a b : Option String) : Option String :=
  match a with
  | some s => if s = "" then b else some s
  | none => b

/-- `Router.route` (router.py lines 144 to 227).  The force override is
checked first and used only when the forced tier is available; then
unavailable tiers short-circuit; then the long-context rule; then the
complexity rules. -/
def route (env : RouterEnv) (classification : TaskClassification)
    (contextTokens : Int) (forceModel : Option String) : Tier :=
  let force := pyOrStr forceModel env.configForceModel
  if force = some "local" && env.localAvailable then Tier.localTier
  else if force = some "remote" && env.remoteAvailable then Tier.remoteTier
  else
    let totalTokens := classification.estimatedTokens + contextTokens
    if !env.localAvailable then Tier.remoteTier
    else if !env.remoteAvailable then Tier.localTier
    else if totalTokens > 1000 then Tier.remoteTier
    else match classification.complexity with
      | TaskComplexity.simple => Tier.localTier
      | TaskComplexity.code =>
          if classification.requiresTools then Tier.remoteTier else Tier.localTier
      | TaskComplexity.complex => Tier.remoteTier
      | TaskComplexity.medium =>
          if env.preferLocal then Tier.localTier else Tier.remoteTier

/-- `Router.should_escalate` (router.py lines 229 to 245). -/
def should_escalate (env : RouterEnv) (currentTier : Tier) (_err : String) : Tier :=
  if currentTier = Tier.localTier && env.remoteAvailable then Tier.remoteTier
  else currentTier

/-- C9: with no force override in effect, whenever the remote tier is
available and estimated output tokens plus context tokens exceed 1000,
`route` returns remote, for every classification, including simple. -/
theorem c9_long_context_remote (env : RouterEnv) (classification : TaskClassification)
    (contextTokens : Int)
    (hcfg : env.configForceModel = none)
    (hremote : env.remoteAvailable = true)
    (hlong : classification.estimatedTokens + contextTokens > 1000) :
    route env classification contextTokens none = Tier.remoteTier := by
  unfold route pyOrStr
  rw [hcfg]
  by_cases hl : env.localAvailable
  · simp [hl, hremote, hlong]
  · simp [eq_false_of_ne_true (fun h => hl h), hremote]

/-- C9 witness: a simple classification with a long context routes to
remote even though both tiers are available and local is preferred. -/
theorem c9_long_context_remote_witness :
    (RouterEnv.mk true true true none).configForceModel = none
    ∧ (RouterEnv.mk true true true none).remoteAvailable = true
    ∧ ((TaskClassification.mk TaskComplexity.simple "" false 50).estimatedTokens
        + (1000:Int) > 1000)
    ∧ route (RouterEnv.mk true true true none)
        (TaskClassification.mk TaskComplexity.simple "" false 50) 1000 none
      = Tier.remoteTier :=
  ⟨rfl, rfl, by decide,
    c9_long_context_remote (RouterEnv.mk true true true none)
      (TaskClassification.mk TaskComplexity.simple "" false 50) 1000
      rfl rfl (by decide)⟩

/-- Modelled from the claim wording of C8: the heuristic rules as the spec
states them, with an authoring-keyword branch at 600 tokens and an
analytical branch including the keyword research.  Used only to exhibit
the divergence from the code. -/
def claimedHeuristicRules (query : String) : TaskComplexity × Int :=
  let queryLower := pyLower query
  let length := wordCount query
  if decide (length < 10) && containsAny queryLower simpleKeywords then
    (TaskComplexity.simple, 50)
  else if containsAny queryLower ["draft", "write", "compose", "cover letter", "application"] then
    (TaskComplexity.complex, 600)
  else if decide (length > 50)
      || containsAny queryLower ["analyze", "compare", "evaluate", "research"] then
    (TaskComplexity.complex, 800)
  else
    (TaskComplexity.medium, 200)

/-- C8 counterexample: the query "draft a letter" contains the authoring
keyword draft, so the claimed rules make it complex with budget 600, but
the code classifies it medium with budget 200; the code has no authoring
branch at all (it has a code-keyword branch at 300 instead). -/
theorem c8_heuristic_cex :
    (simple_classify "draft a letter").complexity = TaskComplexity.medium
    ∧ (simple_classify "draft a letter").estimatedTokens = 200
    ∧ (claimedHeuristicRules "draft a letter").1 = TaskComplexity.complex
    ∧ (claimedHeuristicRules "draft a letter").2 = 600 := by decide

/-- C8 amended: the fallback heuristic implements exactly these rules:
under 10 words with a greeting/definition keyword gives simple at 50;
otherwise a code keyword (code, function, debug, implement, script,
program) gives code at 300; otherwise over 50 words or an analytical
keyword (analyze, explain in detail, compare, evaluate, design,
create a) gives complex at 800; otherwise medium at 200; and
requiresTools holds exactly when the query contains one of search, find,
look up, browse, calculate, run, execute, file. -/
theorem c8_heuristic_amended (q : String) :
    ((decide (wordCount q < 10) && containsAny (pyLower q) simpleKeywords) = true →
      (simple_classify q).complexity = TaskComplexity.simple
        ∧ (simple_classify q).estimatedTokens = 50)
    ∧ ((decide (wordCount q < 10) && containsAny (pyLower q) simpleKeywords) = false →
        containsAny (pyLower q) codeKeywords = true →
      (simple_classify q).complexity = TaskComplexity.code
        ∧ (simple_classify q).estimatedTokens = 300)
    ∧ ((decide (wordCount q < 10) && containsAny (pyLower q) simpleKeywords) = false →
        containsAny (pyLower q) codeKeywords = false →
        (decide (wordCount q > 50) || containsAny (pyLower q) complexKeywords) = true →
      (simple_classify q).complexity = TaskComplexity.complex
        ∧ (simple_classify q).estimatedTokens = 800)
    ∧ ((decide (wordCount q < 10) && containsAny (pyLower q) simpleKeywords) = false →
        containsAny (pyLower q) codeKeywords = false →
        (decide (wordCount q > 50) || containsAny (pyLower q) complexKeywords) = false →
      (simple_classify q).complexity = TaskComplexity.medium
        ∧ (simple_classify q).estimatedTokens = 200)
    ∧ (simple_classify q).requiresTools = containsAny (pyLower q) toolKeywords := by
  refine ⟨fun h1 => ?_, fun h1 h2 => ?_, fun h1 h2 h3 => ?_, fun h1 h2 h3 => ?_, rfl⟩
  · simp [simple_classify, h1]
  · simp [simple_classify, h1, h2]
  · simp [simple_classify, h1, h2, h3]
  · simp [simple_classify, h1, h2, h3]

/-- C8 amended witness: concrete queries exercise the simple branch. -/
theorem c8_heuristic_amended_witness :
    ((decide (wordCount "hello friend" < 10)
        && containsAny (pyLower "hello friend") simpleKeywords) = true)
    ∧ ((simple_classify "hello friend").complexity = TaskComplexity.simple
        ∧ (simple_classify "hello friend").estimatedTokens = 50) :=
  ⟨by decide, (c8_heuristic_amended "hello friend").1 (by decide)⟩

/-- One entry of an available-models catalogue in the configuration
(`id` and `name` fields of the model dicts).  The dict-of-modes legacy
format is already flattened by the code before use, so the catalogue is
a list. -/
structure ModelInfo where
  id : String
  name : String
  deriving DecidableEq, Repr

/-- The configuration state read and written by the lock manager:
`llm.routing.sticky_model`, `llm.routing.last_successful_{tier}_model`,
the per-tier `available_models` catalogues and the active remote model
id `llm.remote.model`. -/
structure LockConfig where
  stickyEnabled : Bool
  lastSuccessfulLocal : Option String
  lastSuccessfulRemote : Option String
  availableLocal : List ModelInfo
  availableRemote : List ModelInfo
  remoteModelCfg : String
  deriving DecidableEq, Repr

/-- Mutable fields of `HybridLLMSystem`.  `localModel` and `remoteModel`
record the model id the underlying chat-model handle was built for;
`none` means the handle was never configured. -/
structure SysState where
  localModel : Option String
  remoteModel : Option String
  currentLocalModel : Option String
  currentRemoteModel : Option String
  lockedLocalModel : Option String
  lockedRemoteModel : Option String
  deriving DecidableEq, Repr

/-- `Config.set_remote_model` (config.py lines 163 to 185): raises
`ValueError` when the id is not in the available catalogue, else records
it as the active remote model. -/
def set_remote_model (cfg : LockConfig) (modelId : String) : Except String LockConfig :=
  if (cfg.availableRemote.map (fun m => m.id)).contains modelId then
    Except.ok { cfg with remoteModelCfg := modelId }
  else
    Except.error "Model not in available models"

/-- `HybridLLMSystem.switch_remote_model` (llm_system.py lines 548 to
559): set the config model (may raise) and reload the remote handle from
the new configuration. -/
def switch_remote_model (cfg : LockConfig) (s : SysState) (modelId : String) :
    Except String (LockConfig × SysState) :=
  match set_remote_model cfg modelId with
  | Except.error e => Except.error e
  | Except.ok cfg2 =>
    Except.ok (cfg2, { s with remoteModel := some cfg2.remoteModelCfg })

/-- `HybridLLMSystem.get_model` (llm_system.py lines 248 to 288): raises
only when the tier's handle is not configured (or, for remote, when
switching to the locked model fails); when a lock is present and differs
from the current model the handle is rebuilt for the locked id.  Returns
the updated config and state and the id of the returned handle. -/
def get_model (cfg : LockConfig) (s : SysState) (tier : Tier) :
    Except String (LockConfig × SysState × String) :=
  match tier with
  | Tier.localTier =>
    match s.localModel with
    | none => Except.error "Local model not configured"
    | some lm =>
      match s.lockedLocalModel with
      | some locked =>
        if s.currentLocalModel ≠ some locked then
          Except.ok (cfg,
            { s with currentLocalModel := some locked, localModel := some locked }, locked)
        else
          Except.ok (cfg, s, lm)
      | none => Except.ok (cfg, s, lm)
  | Tier.remoteTier =>
    match s.remoteModel with
    | none => Except.error "Remote model not configured. Check API key in .env"
    | some rm =>
      match s.lockedRemoteModel with
      | some locked =>
        if s.currentRemoteModel ≠ some locked then
          match switch_remote_model cfg s locked with
          | Except.error e => Except.error e
          | Except.ok (cfg2, s2) =>
            Except.ok (cfg2, { s2 with currentRemoteModel := some locked }, locked)
        else
          Except.ok (cfg, s, rm)
      | none => Except.ok (cfg, s, rm)

/-- `HybridLLMSystem.unlock_model` (llm_system.py lines 624 to 638): clear
the lock for a tier (the code only logs when a lock was present; the
resulting state is the same either way). -/
def unlock_model (s : SysState) (tier : Tier) : SysState :=
  match tier with
  | Tier.localTier => { s with lockedLocalModel := none }
  | Tier.remoteTier => { s with lockedRemoteModel := none }

/-- `HybridLLMSystem._test_remote_model` (llm_system.py lines 460 to 488)
with the network probe as an oracle `probe : String → Bool`: switch the
active remote model when needed (a failed switch is caught and counts as
a failed test, without any probe call), then probe with a minimal
prompt.  The last component lists the ids actually probed. -/
def test_remote_model (cfg : LockConfig) (s : SysState) (probe : String → Bool)
    (modelId : String) : Bool × LockConfig × SysState × List String :=
  if cfg.remoteModelCfg ≠ modelId then
    match switch_remote_model cfg s modelId with
    | Except.error _ => (false, cfg, s, [])
    | Except.ok (cfg2, s2) => (probe modelId, cfg2, s2, [modelId])
  else
    (probe modelId, cfg, s, [modelId])

/-- `HybridLLMSystem._test_local_model` (llm_system.py lines 432 to 458):
a fresh handle is created and probed; all exceptions are caught, so the
result is just the probe oracle. -/
def test_local_model (probe : String → Bool) (modelId : String) : Bool :=
  probe modelId

/-- The candidate loop of `_warmup_and_lock_remote` (llm_system.py lines
413 to 430): test candidates in catalogue order; the first success is
locked and saved as sticky when sticky is enabled; if none succeeds the
lock state is left as it was (the code only logs the failure, which also
covers the empty-catalogue early return). -/
def lockRemoteLoop (probe : String → Bool) :
    List ModelInfo → LockConfig → SysState → LockConfig × SysState × List String
  | [], cfg, s => (cfg, s, [])
  | mi :: rest, cfg, s =>
    match test_remote_model cfg s probe mi.id with
    | (true, cfg2, s2, t) =>
      ((if cfg2.stickyEnabled then { cfg2 with lastSuccessfulRemote := some mi.id } else cfg2),
        { s2 with lockedRemoteModel := some mi.id }, t)
    | (false, cfg2, s2, t) =>
      let r := lockRemoteLoop probe rest cfg2 s2
      (r.1, r.2.1, t ++ r.2.2)

/-- `HybridLLMSystem._warmup_and_lock_remote` (llm_system.py lines 375 to
430): nothing to do without a remote handle; otherwise, when sticky is
enabled and a last-successful id exists, that id is tested first and
locked on success; otherwise the catalogue is walked in order.  The last
component lists every id probed, in order. -/
def warmup_and_lock_remote (cfg : LockConfig) (s : SysState) (probe : String → Bool) :
    LockConfig × SysState × List String :=
  match s.remoteModel with
  | none => (cfg, s, [])
  | some _ =>
    match (if cfg.stickyEnabled then cfg.lastSuccessfulRemote else none) with
    | some sm =>
      match test_remote_model cfg s probe sm with
      | (true, cfg2, s2, t) => (cfg2, { s2 with lockedRemoteModel := some sm }, t)
      | (false, cfg2, s2, t) =>
        let r := lockRemoteLoop probe cfg2.availableRemote cfg2 s2
        (r.1, r.2.1, t ++ r.2.2)
    | none => lockRemoteLoop probe cfg.availableRemote cfg s

/-- The candidate loop of `_warmup_and_lock_local` (llm_system.py lines
357 to 373), analogous to the remote loop but without model switching. -/
def lockLocalLoop (probe : String → Bool) :
    List ModelInfo → LockConfig → SysState → LockConfig × SysState × List String
  | [], cfg, s => (cfg, s, [])
  | mi :: rest, cfg, s =>
    if test_local_model probe mi.id then
      ((if cfg.stickyEnabled then { cfg with lastSuccessfulLocal := some mi.id } else cfg),
        { s with lockedLocalModel := some mi.id }, [mi.id])
    else
      let r := lockLocalLoop probe rest cfg s
      (r.1, r.2.1, mi.id :: r.2.2)

/-- `HybridLLMSystem._warmup_and_lock_local` (llm_system.py lines 318 to
373). -/
def warmup_and_lock_local (cfg : LockConfig) (s : SysState) (probe : String → Bool) :
    LockConfig × SysState × List String :=
  match s.localModel with
  | none => (cfg, s, [])
  | some _ =>
    match (if cfg.stickyEnabled then cfg.lastSuccessfulLocal else none) with
    | some sm =>
      if test_local_model probe sm then
        (cfg, { s with lockedLocalModel := some sm }, [sm])
      else
        let r := lockLocalLoop probe cfg.availableLocal cfg s
        (r.1, r.2.1, sm :: r.2.2)
    | none => lockLocalLoop probe cfg.availableLocal cfg s

/-- `HybridLLMSystem.relock_model` (llm_system.py lines 640 to 651):
dispatch to the warmup-and-lock routine of the tier. -/
def relock_model (cfg : LockConfig) (s : SysState) (probe : String → Bool) (tier : Tier) :
    LockConfig × SysState × List String :=
  match tier with
  | Tier.localTier => warmup_and_lock_local cfg s probe
  | Tier.remoteTier => warmup_and_lock_remote cfg s probe

/-- Success test for an embedded Python call: no exception was raised. -/
def exceptOk {ε α : Type} : Except ε α → Bool
  | Except.ok _ => true
  | Except.error _ => false

/-- C2 counterexample: with the local tier configured but UNLOCKED
(`lockedLocalModel = none`), `get_model` succeeds and returns the
current local handle, contradicting the claim that it never succeeds
while unlocked. -/
theorem c2_lock_gate_cex :
    (SysState.mk (some "llama") none (some "llama") none none none).lockedLocalModel = none
    ∧ get_model (LockConfig.mk true none none [] [] "g")
        (SysState.mk (some "llama") none (some "llama") none none none) Tier.localTier
      = Except.ok (LockConfig.mk true none none [] [] "g",
          SysState.mk (some "llama") none (some "llama") none none none, "llama") := by
  exact ⟨rfl, rfl⟩

/-- C2 amended: `get_model` fails only when the tier's handle is not
configured; in particular, for either tier, when the tier is configured
but UNLOCKED it succeeds and returns the current handle unchanged,
without consulting the lock state. -/
theorem c2_lock_gate_amended (cfg : LockConfig) (s : SysState) :
    (exceptOk (get_model cfg s Tier.localTier) = s.localModel.isSome)
    ∧ (s.lockedLocalModel = none → ∀ lm, s.localModel = some lm →
        get_model cfg s Tier.localTier = Except.ok (cfg, s, lm))
    ∧ (s.lockedRemoteModel = none → ∀ rm, s.remoteModel = some rm →
        get_model cfg s Tier.remoteTier = Except.ok (cfg, s, rm)) := by
  obtain ⟨lM, rM, cL, cR, lockL, lockR⟩ := s
  refine ⟨?_, ?_, ?_⟩
  · cases lM with
    | none => simp [get_model, exceptOk]
    | some lm =>
      cases lockL with
      | none => simp [get_model, exceptOk]
      | some locked =>
        simp only [get_model]
        split_ifs <;> simp [exceptOk]
  · intro hL lm hlm
    simp only at hL hlm
    subst hL
    subst hlm
    rfl
  · intro hR rm hrm
    simp only at hR hrm
    subst hR
    subst hrm
    rfl

/-- C2 amended witness: the counterexample state instantiates the amended
theorem for the local tier. -/
theorem c2_lock_gate_amended_witness :
    ((SysState.mk (some "llama") none (some "llama") none none none).lockedLocalModel = none)
    ∧ ((SysState.mk (some "llama") none (some "llama") none none none).localModel = some "llama")
    ∧ get_model (LockConfig.mk true none none [] [] "g")
        (SysState.mk (some "llama") none (some "llama") none none none) Tier.localTier
      = Except.ok (LockConfig.mk true none none [] [] "g",
          SysState.mk (some "llama") none (some "llama") none none none, "llama") :=
  ⟨rfl, rfl,
    (c2_lock_gate_amended (LockConfig.mk true none none [] [] "g")
      (SysState.mk (some "llama") none (some "llama") none none none)).2.1
      rfl "llama" rfl⟩

/-- Helper for C3: when sticky is enabled with a last-successful remote
id whose switch cannot fail (it is the active model or in the
catalogue), a remote relock probes that id first; if the probe succeeds
the id is immediately re-locked and nothing else is probed. -/
theorem warmup_remote_sticky_first (cfg : LockConfig) (s : SysState)
    (probe : String → Bool) (a : String)
    (hsticky : cfg.stickyEnabled = true)
    (hlast : cfg.lastSuccessfulRemote = some a)
    (hconf : s.remoteModel.isSome = true)
    (hcur : cfg.remoteModelCfg = a
        ∨ ((cfg.availableRemote.map (fun m => m.id)).contains a) = true) :
    ∃ rest, (warmup_and_lock_remote cfg s probe).2.2 = a :: rest
      ∧ (probe a = true →
          (warmup_and_lock_remote cfg s probe).2.1.lockedRemoteModel = some a ∧ rest = []) := by
  obtain ⟨lM, rM, cL, cR, lockL, lockR⟩ := s
  cases rM with
  | none => simp at hconf
  | some rm =>
    have ht : ∃ C S, test_remote_model cfg ⟨lM, some rm, cL, cR, lockL, lockR⟩ probe a
        = (probe a, C, S, [a]) := by
      by_cases hc : cfg.remoteModelCfg = a
      · exact ⟨cfg, ⟨lM, some rm, cL, cR, lockL, lockR⟩, by simp [test_remote_model, hc]⟩
      · rcases hcur with h | h
        · exact absurd h hc
        · simp only [List.contains_iff_exists_mem_beq, List.mem_map, beq_iff_eq] at h
          obtain ⟨a2, ⟨mi, hmi, hid⟩, haa⟩ := h
          subst haa
          have hmem : ∃ mi ∈ cfg.availableRemote, mi.id = a := ⟨mi, hmi, hid⟩
          refine ⟨{ cfg with remoteModelCfg := a },
            { SysState.mk lM (some rm) cL cR lockL lockR with
                remoteModel := some a }, ?_⟩
          simp [test_remote_model, hc, switch_remote_model, set_remote_model, hmem]
    rcases ht with ⟨C, S, ht⟩
    simp only [warmup_and_lock_remote, hsticky, if_true, hlast, ht]
    cases hp : probe a with
    | true =>
      exact ⟨[], rfl, fun _ => ⟨rfl, rfl⟩⟩
    | false =>
      exact ⟨(lockRemoteLoop probe C.availableRemote C S).2.2, rfl,
        fun hpp => Bool.noConfusion hpp⟩

/-- C3 counterexample: tier remote was locked to model A, the invocation
failed and `unlock` cleared the lock; the subsequent
`relock_model(remote)` probes model A first (it is the sticky
last-successful id) and, since the probe now succeeds, re-locks the very
model the claim says is never re-probed. -/
theorem c3_relock_exclusion_cex :
    (relock_model
        (LockConfig.mk true none (some "A") [] [ModelInfo.mk "A" "A", ModelInfo.mk "B" "B"] "A")
        (SysState.mk none (some "A") none none none none)
        (fun _ => true) Tier.remoteTier).2.2 = ["A"]
    ∧ (relock_model
        (LockConfig.mk true none (some "A") [] [ModelInfo.mk "A" "A", ModelInfo.mk "B" "B"] "A")
        (SysState.mk none (some "A") none none none none)
        (fun _ => true) Tier.remoteTier).2.1.lockedRemoteModel = some "A" := by
  exact ⟨rfl, rfl⟩

/-- C3 amended: `relock_model` performs no exclusion of previously tried
models: there is no tried-model set in the code (the workflow field
`remote_models_tried` is never written), and with sticky enabled the
just-failed last-successful model A is re-probed first; when the probe
succeeds, A is immediately re-locked. -/
theorem c3_relock_exclusion_amended (cfg : LockConfig) (s : SysState)
    (probe : String → Bool) (a : String)
    (hsticky : cfg.stickyEnabled = true)
    (hlast : cfg.lastSuccessfulRemote = some a)
    (hconf : s.remoteModel.isSome = true)
    (hcur : cfg.remoteModelCfg = a
        ∨ ((cfg.availableRemote.map (fun m => m.id)).contains a) = true) :
    ∃ rest, (relock_model cfg s probe Tier.remoteTier).2.2 = a :: rest
      ∧ (probe a = true →
          (relock_model cfg s probe Tier.remoteTier).2.1.lockedRemoteModel = some a
            ∧ rest = []) :=
  warmup_remote_sticky_first cfg s probe a hsticky hlast hconf hcur

/-- C3 amended witness: the scenario state, with a probe that fails for
every model as it did when A was unlocked. -/
theorem c3_relock_exclusion_amended_witness :
    ((LockConfig.mk true none (some "A") [] [ModelInfo.mk "A" "A", ModelInfo.mk "B" "B"] "A").stickyEnabled = true)
    ∧ ((LockConfig.mk true none (some "A") [] [ModelInfo.mk "A" "A", ModelInfo.mk "B" "B"] "A").lastSuccessfulRemote = some "A")
    ∧ ((SysState.mk none (some "A") none none none none).remoteModel.isSome = true)
    ∧ ∃ rest, (relock_model
        (LockConfig.mk true none (some "A") [] [ModelInfo.mk "A" "A", ModelInfo.mk "B" "B"] "A")
        (SysState.mk none (some "A") none none none none)
        (fun _ => false) Tier.remoteTier).2.2 = "A" :: rest
      ∧ ((fun (_ : String) => false) "A" = true →
          (relock_model
            (LockConfig.mk true none (some "A") [] [ModelInfo.mk "A" "A", ModelInfo.mk "B" "B"] "A")
            (SysState.mk none (some "A") none none none none)
            (fun _ => false) Tier.remoteTier).2.1.lockedRemoteModel = some "A"
            ∧ rest = []) :=
  ⟨rfl, rfl, rfl,
    c3_relock_exclusion_amended
      (LockConfig.mk true none (some "A") [] [ModelInfo.mk "A" "A", ModelInfo.mk "B" "B"] "A")
      (SysState.mk none (some "A") none none none none)
      (fun _ => false) "A" rfl rfl rfl (Or.inl rfl)⟩

/-- Python truthiness of an optional string (`if state.get("error")`,
`if model_id`): present and non-empty. -/
def pyTruthyStr : Option String → Bool
  | some s => s ≠ ""
  | none => false

/-- `AgentState` (workflow.py lines 19 to 32).  `remoteModelsTried` is
declared in the code but never written by any node. -/
structure WAgentState where
  messages : List Message
  query : String
  classification : Option TaskClassification
  modelTier : Option Tier
  modelUsed : String
  retryCount : Nat
  error : Option String
  toolCallsMade : Nat
  forceModel : Option String
  remoteModelsTried : List String
  remoteRetryCount : Nat
  deriving DecidableEq, Repr

/-- The nodes of the compiled LangGraph workflow plus the two terminal
outcomes of the conditional edge. -/
inductive WNode
  | classifyNode
  | routeNode
  | agentNode
  | toolsNode
  | doneEnd
  | doneError
  deriving DecidableEq, Repr

/-- One invocation outcome of the bound model inside the agent node. -/
inductive AgentOutcome
  | fail (err : String)
  | ok (response : Message)
  deriving DecidableEq, Repr

/-- External collaborators of the workflow, as oracles: the outcome of
the k-th model invocation; the lock/config state produced by the k-th
`relock_model` call (its network probes vary over time, so each call may
land on a different model); the classifier result (`none` models a
classification exception, which substitutes the heuristic fallback); and
the tool messages appended by the k-th tools-node execution. -/
structure WorkflowEnv where
  invokeOutcome : Nat → AgentOutcome
  relockResult : Nat → Tier → LockConfig × SysState → LockConfig × SysState
  classifyOutcome : Option TaskClassification
  toolMessages : Nat → List Message

/-- Configuration read by the workflow: `agent.max_iterations`,
`llm.routing.prefer_local`, `llm.routing.force_model`, the memory
manager and the model-limits tables. -/
structure WConfig where
  maxIterations : Nat
  preferLocal : Bool
  configForceModel : Option String
  memory : MemoryManager
  limits : Tier → String → Option ModelLimits

/-- The router environment as seen at a given moment: availability is
`_local_model`/`_remote_model` being configured. -/
def routerEnvOf (cfg : WConfig) (s : SysState) : RouterEnv :=
  ⟨s.localModel.isSome, s.remoteModel.isSome, cfg.preferLocal, cfg.configForceModel⟩

/-- The full machine state: current node, agent state, config and LLM
system state, oracle indices, and a trace of the tiers passed to
`relock_model`, in call order. -/
structure GraphState where
  node : WNode
  st : WAgentState
  cfgR : LockConfig
  sys : SysState
  invokeCount : Nat
  relockCount : Nat
  toolsCount : Nat
  relockTrace : List Tier

/-- Perform one `relock_model` call through the oracle, recording it in
the trace. -/
def doRelock (env : WorkflowEnv) (g : GraphState) (tier : Tier) : GraphState :=
  let r := env.relockResult g.relockCount tier (g.cfgR, g.sys)
  { g with
    cfgR := r.1
    sys := r.2
    relockCount := g.relockCount + 1
    relockTrace := g.relockTrace ++ [tier] }

/-- `HybridAgent._classify_node` (workflow.py lines 108 to 127): the
classifier result, or `_simple_classify(query)` when classification
raised. -/
def classify_node (env : WorkflowEnv) (g : GraphState) : GraphState :=
  let cls := match env.classifyOutcome with
    | some c => c
    | none => simple_classify g.st.query
  { g with st := { g.st with classification := some cls } }

/-- Fallback classification used where the code would read a classification
that the classify node always sets before route runs; this default is
unreachable from the initial state. -/
def placeholderClassification : TaskClassification :=
  ⟨TaskComplexity.medium, "", false, 200⟩

/-- `HybridAgent._route_node` (workflow.py lines 129 to 187).  On a retry
(`retry_count > 0`): a remote tier with fewer than 3 remote retries is
relocked and stays remote with the counter incremented; an exhausted
remote tier falls back to local, relocking local when it has no lock;
a local tier escalates through `should_escalate`, relocking remote when
it moved there without a lock (`state.get("model_tier", "local")`
returns the stored value, which is only `None` before the first route).
On a fresh run: route on the classification, the summed word count of
prior messages and the force override, then lazily relock the chosen
tier when it has no lock. -/
def route_node (cfg : WConfig) (env : WorkflowEnv) (g : GraphState) : GraphState :=
  if g.st.retryCount > 0 then
    let currentTier := g.st.modelTier
    let rrc := g.st.remoteRetryCount
    if currentTier = some Tier.remoteTier ∧ rrc < 3 then
      let g2 := doRelock env g Tier.remoteTier
      { g2 with st := { g2.st with
          modelTier := some Tier.remoteTier
          remoteRetryCount := rrc + 1 } }
    else if currentTier = some Tier.remoteTier then
      let g2 := { g with st := { g.st with modelTier := some Tier.localTier } }
      if g2.sys.lockedLocalModel = none then doRelock env g2 Tier.localTier else g2
    else
      match currentTier with
      | some t =>
        let newTier := should_escalate (routerEnvOf cfg g.sys) t (g.st.error.getD "")
        let g2 := { g with st := { g.st with modelTier := some newTier } }
        if newTier = Tier.remoteTier ∧ g2.sys.lockedRemoteModel = none then
          doRelock env g2 Tier.remoteTier
        else g2
      | none => g
  else
    let contextTokens : Int :=
      g.st.messages.foldl (fun acc m => acc + (wordCount m.content : Int)) 0
    let tier := route (routerEnvOf cfg g.sys)
      (g.st.classification.getD placeholderClassification) contextTokens g.st.forceModel
    let g2 := { g with st := { g.st with modelTier := some tier } }
    if tier = Tier.localTier ∧ g2.sys.lockedLocalModel = none then
      doRelock env g2 Tier.localTier
    else if tier = Tier.remoteTier ∧ g2.sys.lockedRemoteModel = none then
      doRelock env g2 Tier.remoteTier
    else g2

/-- The except branch of `_agent_node` (workflow.py lines 289 to 305):
record the error, bump the retry counter and unlock the tier; the
message list is not written back. -/
def agentFailUpdate (g : GraphState) (tier : Option Tier) (e : String) : GraphState :=
  { g with
    st := { g.st with error := some e, retryCount := g.st.retryCount + 1 }
    sys := match tier with
      | some t => unlock_model g.sys t
      | none => g.sys }

/-- Python `x or "unknown"` on the optional current local model name. -/
def localNameOr (o : Option String) : String :=
  match o with
  | some s => if s = "" then "unknown" else s
  | none => "unknown"

/-- `HybridAgent._agent_node` (workflow.py lines 189 to 305): resolve the
locked model (any `get_model` error is caught by the except branch),
apply memory management when a truthy model id is known, invoke the
model through the oracle; on success append the response, record the
model used, clear the error, and tally tool calls; on exception record
the error, bump `retry_count` and unlock the tier.  The status-overlay
calls are wrapped in their own try/except-pass and have no effect on
state. -/
def agent_node (cfg : WConfig) (env : WorkflowEnv) (g : GraphState) : GraphState :=
  match g.st.modelTier with
  | none => agentFailUpdate g none "Unknown tier: None"
  | some tier =>
    match get_model g.cfgR g.sys tier with
    | Except.error e => agentFailUpdate g (some tier) e
    | Except.ok (cfg2, sys2, _handle) =>
      let messages0 := if g.st.messages = [] then [Message.mk Role.human g.st.query 0]
        else g.st.messages
      let modelId : Option String := match tier with
        | Tier.remoteTier => pyOrStr sys2.lockedRemoteModel (some cfg2.remoteModelCfg)
        | Tier.localTier => pyOrStr sys2.lockedLocalModel sys2.currentLocalModel
      let messages1 := if pyTruthyStr modelId then
          manage_context cfg.memory cfg.limits messages0 (modelId.getD "") tier
        else messages0
      match env.invokeOutcome g.invokeCount with
      | AgentOutcome.fail e =>
        let g2 := agentFailUpdate g (some tier) e
        { g2 with
          cfgR := cfg2
          sys := unlock_model sys2 tier
          invokeCount := g.invokeCount + 1 }
      | AgentOutcome.ok resp =>
        let used := match tier with
          | Tier.remoteTier => "remote (" ++ cfg2.remoteModelCfg ++ ")"
          | Tier.localTier => "local (" ++ localNameOr sys2.currentLocalModel ++ ")"
        { g with
          st := { g.st with
            messages := messages1 ++ [resp]
            modelUsed := used
            error := none
            toolCallsMade := if resp.toolCallCount > 0 then
                g.st.toolCallsMade + resp.toolCallCount
              else g.st.toolCallsMade }
          cfgR := cfg2
          sys := sys2
          invokeCount := g.invokeCount + 1 }

/-- The four labels of the conditional edge after the agent node. -/
inductive Decision
  | toTools
  | toEnd
  | toRetry
  | toError
  deriving DecidableEq, Repr

/-- `HybridAgent._should_continue` (workflow.py lines 307 to 340): a
truthy error retries while `retry_count` is below
`max_iterations // 2`, else errors out; otherwise pending tool calls on
the last message continue to tools while `tool_calls_made` is below
`max_iterations`; otherwise end. -/
def should_continue (cfg : WConfig) (st : WAgentState) : Decision :=
  if pyTruthyStr st.error then
    if st.retryCount < cfg.maxIterations / 2 then Decision.toRetry else Decision.toError
  else
    match st.messages.getLast? with
    | none => Decision.toEnd
    | some last =>
      if last.toolCallCount > 0 then
        if st.toolCallsMade ≥ cfg.maxIterations then Decision.toEnd else Decision.toTools
      else Decision.toEnd

/-- The `ToolNode` step (workflow.py line 82 and 104): execute the pending
tool calls through the oracle and append the resulting tool messages
(`ToolNode` returns a partial update holding only the new messages, so
the add reducer appends exactly them); then back to the agent node. -/
def tools_node (env : WorkflowEnv) (g : GraphState) : GraphState :=
  { g with
    st := { g.st with messages := g.st.messages ++ env.toolMessages g.toolsCount }
    toolsCount := g.toolsCount + 1 }

/-- The LangGraph add reducer on the `messages` channel: the classify,
route and agent nodes return the full state dict, so the reducer
concatenates the old messages with the returned ones (all other fields
are last-value channels). -/
def applyNode (old new : WAgentState) : WAgentState :=
  { new with messages := old.messages ++ new.messages }

/-- One superstep of the compiled graph (workflow.py lines 74 to 106):
run the current node, apply the add reducer on messages, and follow the
unconditional edges (classify to route, route to agent, tools to agent)
or the conditional edge after agent.  Terminal nodes are fixed. -/
def step (cfg : WConfig) (env : WorkflowEnv) (g : GraphState) : GraphState :=
  match g.node with
  | WNode.classifyNode =>
    let g2 := classify_node env g
    { g2 with st := applyNode g.st g2.st, node := WNode.routeNode }
  | WNode.routeNode =>
    let g2 := route_node cfg env g
    { g2 with st := applyNode g.st g2.st, node := WNode.agentNode }
  | WNode.agentNode =>
    let g2 := agent_node cfg env g
    let st2 := applyNode g.st g2.st
    match should_continue cfg st2 with
    | Decision.toTools => { g2 with st := st2, node := WNode.toolsNode }
    | Decision.toEnd => { g2 with st := st2, node := WNode.doneEnd }
    | Decision.toRetry => { g2 with st := st2, node := WNode.routeNode }
    | Decision.toError => { g2 with st := st2, node := WNode.doneError }
  | WNode.toolsNode =>
    let g2 := tools_node env g
    { g2 with node := WNode.agentNode }
  | WNode.doneEnd => g
  | WNode.doneError => g

/-- The initial `AgentState` dict of `run` (workflow.py lines 358 to 370). -/
def initialAgentState (query : String) (forceModel : Option String) : WAgentState :=
  { messages := []
    query := query
    classification := none
    modelTier := none
    modelUsed := ""
    retryCount := 0
    error := none
    toolCallsMade := 0
    forceModel := forceModel
    remoteModelsTried := []
    remoteRetryCount := 0 }

/-- The machine state at graph entry. -/
def initialGraphState (query : String) (forceModel : Option String)
    (cfgR : LockConfig) (sys : SysState) : GraphState :=
  { node := WNode.classifyNode
    st := initialAgentState query forceModel
    cfgR := cfgR
    sys := sys
    invokeCount := 0
    relockCount := 0
    toolsCount := 0
    relockTrace := [] }

/-- `HybridAgent.run` (workflow.py lines 342 to 388): when the graph is
not yet built, `initialize()` runs OUTSIDE the try block, so its
exceptions propagate; the try block only wraps `graph.ainvoke`, whose
exceptions become a returned result dict spreading the initial state
with the error string and a single AI error message. -/
def run (graphBuilt : Bool) (initOutcome : Except String Unit)
    (graphOutcome : Except String WAgentState) (query : String)
    (forceModel : Option String) : Except String WAgentState :=
  match (if graphBuilt then Except.ok () else initOutcome) with
  | Except.error e => Except.error e
  | Except.ok _ =>
    match graphOutcome with
    | Except.ok result => Except.ok result
    | Except.error e =>
      Except.ok { initialAgentState query forceModel with
        error := some e
        messages := [Message.mk Role.ai ("Error: " ++ e) 0] }

@[simp] theorem applyNode_retryCount (o n : WAgentState) :
    (applyNode o n).retryCount = n.retryCount := rfl

@[simp] theorem applyNode_toolCallsMade (o n : WAgentState) :
    (applyNode o n).toolCallsMade = n.toolCallsMade := rfl

@[simp] theorem applyNode_remoteRetryCount (o n : WAgentState) :
    (applyNode o n).remoteRetryCount = n.remoteRetryCount := rfl

@[simp] theorem applyNode_error (o n : WAgentState) :
    (applyNode o n).error = n.error := rfl

@[simp] theorem applyNode_modelTier (o n : WAgentState) :
    (applyNode o n).modelTier = n.modelTier := rfl

@[simp] theorem applyNode_messages (o n : WAgentState) :
    (applyNode o n).messages = o.messages ++ n.messages := rfl

@[simp] theorem doRelock_st (env : WorkflowEnv) (g : GraphState) (tier : Tier) :
    (doRelock env g tier).st = g.st := rfl

@[simp] theorem doRelock_trace (env : WorkflowEnv) (g : GraphState) (tier : Tier) :
    (doRelock env g tier).relockTrace = g.relockTrace ++ [tier] := rfl

/-- The classify node touches only the classification field. -/
theorem classify_node_fields (env : WorkflowEnv) (g : GraphState) :
    (classify_node env g).st.retryCount = g.st.retryCount
    ∧ (classify_node env g).st.toolCallsMade = g.st.toolCallsMade
    ∧ (classify_node env g).st.remoteRetryCount = g.st.remoteRetryCount
    ∧ (classify_node env g).st.messages = g.st.messages
    ∧ (classify_node env g).st.error = g.st.error :=
  ⟨rfl, rfl, rfl, rfl, rfl⟩

/-- The route node never touches the retry counter, the tool tally, the
error or the messages. -/
theorem route_node_fields (cfg : WConfig) (env : WorkflowEnv) (g : GraphState) :
    (route_node cfg env g).st.retryCount = g.st.retryCount
    ∧ (route_node cfg env g).st.toolCallsMade = g.st.toolCallsMade
    ∧ (route_node cfg env g).st.error = g.st.error
    ∧ (route_node cfg env g).st.messages = g.st.messages := by
  unfold route_node
  split_ifs <;> try exact ⟨rfl, rfl, rfl, rfl⟩
  all_goals
    cases g.st.modelTier <;> simp only [doRelock_st] <;>
      first
        | exact ⟨rfl, rfl, rfl, rfl⟩
        | (split_ifs <;> exact ⟨rfl, rfl, rfl, rfl⟩)

/-- The tools node touches only the messages and its oracle index. -/
theorem tools_node_fields (env : WorkflowEnv) (g : GraphState) :
    (tools_node env g).st.retryCount = g.st.retryCount
    ∧ (tools_node env g).st.toolCallsMade = g.st.toolCallsMade
    ∧ (tools_node env g).st.remoteRetryCount = g.st.remoteRetryCount
    ∧ (tools_node env g).st.error = g.st.error :=
  ⟨rfl, rfl, rfl, rfl⟩

/-- `get_model` never fails with an empty error string. -/
theorem get_model_error_ne (cfg : LockConfig) (s : SysState) (tier : Tier) (e : String)
    (h : get_model cfg s tier = Except.error e) : e ≠ "" := by
  cases tier with
  | localTier =>
    cases hl : s.localModel with
    | none =>
      simp only [get_model, hl] at h
      cases h
      decide
    | some lm =>
      cases hk : s.lockedLocalModel with
      | none =>
        simp only [get_model, hl, hk] at h
        exact Except.noConfusion h
      | some locked =>
        simp only [get_model, hl, hk] at h
        split_ifs at h
  | remoteTier =>
    cases hr : s.remoteModel with
    | none =>
      simp only [get_model, hr] at h
      cases h
      decide
    | some rm =>
      cases hk : s.lockedRemoteModel with
      | none =>
        simp only [get_model, hr, hk] at h
        exact Except.noConfusion h
      | some locked =>
        simp only [get_model, hr, hk] at h
        split_ifs at h
        cases hs : switch_remote_model cfg s locked with
        | error e2 =>
          rw [hs] at h
          cases h
          unfold switch_remote_model set_remote_model at hs
          split_ifs at hs
          all_goals
            first
              | exact Except.noConfusion hs
              | (injection hs with hs2; rw [← hs2]; decide)
        | ok p =>
          obtain ⟨c2, s2⟩ := p
          rw [hs] at h
          exact Except.noConfusion h

/-- Case analysis of one agent-node execution: either some exception was
caught (a non-configured or unknown tier, a failed lock switch, or a
failed invocation), leaving exactly an error and a bumped retry counter
in the agent state, or the invocation succeeded, appending the response,
clearing the error and tallying its tool calls. -/
theorem agent_node_spec (cfg : WConfig) (env : WorkflowEnv) (g : GraphState) :
    (∃ e, (agent_node cfg env g).st
          = { g.st with error := some e, retryCount := g.st.retryCount + 1 }
        ∧ (e ≠ "" ∨ env.invokeOutcome g.invokeCount = AgentOutcome.fail e))
    ∨ (∃ resp, env.invokeOutcome g.invokeCount = AgentOutcome.ok resp
        ∧ (agent_node cfg env g).st.messages.getLast? = some resp
        ∧ (agent_node cfg env g).st.error = none
        ∧ (agent_node cfg env g).st.retryCount = g.st.retryCount
        ∧ (agent_node cfg env g).st.remoteRetryCount = g.st.remoteRetryCount
        ∧ (agent_node cfg env g).st.toolCallsMade
            = (if resp.toolCallCount > 0 then g.st.toolCallsMade + resp.toolCallCount
               else g.st.toolCallsMade)) := by
  cases hmt : g.st.modelTier with
  | none =>
    left
    refine ⟨"Unknown tier: None", ?_, Or.inl (by decide)⟩
    simp only [agent_node, hmt, agentFailUpdate]
  | some tier =>
    cases hgm : get_model g.cfgR g.sys tier with
    | error e =>
      left
      refine ⟨e, ?_, Or.inl (get_model_error_ne g.cfgR g.sys tier e hgm)⟩
      simp only [agent_node, hmt, hgm, agentFailUpdate]
    | ok triple =>
      obtain ⟨cfg2, sys2, handle⟩ := triple
      cases hio : env.invokeOutcome g.invokeCount with
      | fail e =>
        left
        refine ⟨e, ?_, Or.inr rfl⟩
        simp only [agent_node, hmt, hgm, hio, agentFailUpdate]
      | ok resp =>
        right
        refine ⟨resp, rfl, ?_, ?_, ?_, ?_, ?_⟩ <;>
          simp only [agent_node, hmt, hgm, hio, List.getLast?_concat]

/-- The retry branch of the route node that relocks remote and increments
the remote-escalation counter: a retry with the remote tier selected and
fewer than 3 remote retries so far. -/
def isRemoteRetryBranch (g : GraphState) : Bool :=
  decide (g.node = WNode.routeNode) && decide (0 < g.st.retryCount)
    && decide (g.st.modelTier = some Tier.remoteTier)
    && decide (g.st.remoteRetryCount < 3)

/-- The route node increments the remote-escalation counter exactly in
its remote retry branch, and leaves it unchanged otherwise. -/
theorem route_node_rrc (cfg : WConfig) (env : WorkflowEnv) (g : GraphState) :
    (route_node cfg env g).st.remoteRetryCount
      = g.st.remoteRetryCount
        + (if 0 < g.st.retryCount ∧ g.st.modelTier = some Tier.remoteTier
              ∧ g.st.remoteRetryCount < 3 then 1 else 0) := by
  unfold route_node
  by_cases h1 : g.st.retryCount > 0
  · rw [if_pos h1]
    by_cases h2 : g.st.modelTier = some Tier.remoteTier ∧ g.st.remoteRetryCount < 3
    · rw [if_pos h2, if_pos ⟨h1, h2.1, h2.2⟩]
    · have hR : ¬(0 < g.st.retryCount ∧ g.st.modelTier = some Tier.remoteTier
          ∧ g.st.remoteRetryCount < 3) := fun hand => h2 ⟨hand.2.1, hand.2.2⟩
      rw [if_neg h2, if_neg hR]
      by_cases h3 : g.st.modelTier = some Tier.remoteTier
      · rw [if_pos h3]
        dsimp only
        split_ifs <;> simp
      · rw [if_neg h3]
        split
        · dsimp only
          split_ifs <;> simp
        · simp
  · have hR : ¬(0 < g.st.retryCount ∧ g.st.modelTier = some Tier.remoteTier
        ∧ g.st.remoteRetryCount < 3) := fun hand => h1 hand.1
    rw [if_neg h1, if_neg hR]
    dsimp only
    split_ifs <;> simp

/-- Each superstep changes the remote-escalation counter exactly when it
executes the remote retry branch of the route node, and then by one. -/
theorem step_rrc (cfg : WConfig) (env : WorkflowEnv) (g : GraphState) :
    (step cfg env g).st.remoteRetryCount
      = g.st.remoteRetryCount + (if isRemoteRetryBranch g then 1 else 0) := by
  cases hn : g.node with
  | classifyNode =>
    simp [step, hn, classify_node, applyNode, isRemoteRetryBranch]
  | routeNode =>
    simp only [step, hn, applyNode_remoteRetryCount]
    rw [route_node_rrc]
    have hiff : (isRemoteRetryBranch g = true)
        ↔ (0 < g.st.retryCount ∧ g.st.modelTier = some Tier.remoteTier
            ∧ g.st.remoteRetryCount < 3) := by
      simp [isRemoteRetryBranch, hn, and_assoc]
    by_cases hb : 0 < g.st.retryCount ∧ g.st.modelTier = some Tier.remoteTier
        ∧ g.st.remoteRetryCount < 3
    · rw [if_pos hb, if_pos (hiff.mpr hb)]
    · rw [if_neg hb, if_neg (fun hc => hb (hiff.mp hc))]
  | agentNode =>
    have hrrc : (agent_node cfg env g).st.remoteRetryCount = g.st.remoteRetryCount := by
      rcases agent_node_spec cfg env g with ⟨e, hst, _⟩ | ⟨resp, _, _, _, _, hr, _⟩
      · rw [hst]
      · exact hr
    have hbranch : isRemoteRetryBranch g = false := by
      simp [isRemoteRetryBranch, hn]
    simp only [step, hn, hbranch, if_false, Bool.false_eq_true]
    cases should_continue cfg (applyNode g.st (agent_node cfg env g).st) <;>
      simpa using hrrc
  | toolsNode =>
    simp [step, hn, tools_node, isRemoteRetryBranch]
  | doneEnd =>
    simp [step, hn, isRemoteRetryBranch]
  | doneError =>
    simp [step, hn, isRemoteRetryBranch]

/-- The remote-escalation counter never exceeds 3: the incrementing branch
requires it to be below 3. -/
theorem step_rrc_le (cfg : WConfig) (env : WorkflowEnv) (g : GraphState)
    (h : g.st.remoteRetryCount ≤ 3) :
    (step cfg env g).st.remoteRetryCount ≤ 3 := by
  rw [step_rrc]
  by_cases hb : isRemoteRetryBranch g = true
  · have hlt : g.st.remoteRetryCount < 3 := by
      have := hb
      simp only [isRemoteRetryBranch, Bool.and_eq_true, decide_eq_true_eq] at this
      exact this.2
    rw [if_pos hb]
    omega
  · rw [if_neg hb]
    exact h

/-- Number of executions of the remote retry branch of the route node in
the first `n` supersteps from `g0`. -/
def remoteRetryRelocks (cfg : WConfig) (env : WorkflowEnv) (g0 : GraphState) (n : Nat) : Nat :=
  ((List.range n).filter (fun i => isRemoteRetryBranch ((step cfg env)^[i] g0))).length

/-- The remote-escalation counter equals its initial value plus the number
of remote retry-branch executions so far. -/
theorem rrc_iterate (cfg : WConfig) (env : WorkflowEnv) (g0 : GraphState) (n : Nat) :
    ((step cfg env)^[n] g0).st.remoteRetryCount
      = g0.st.remoteRetryCount + remoteRetryRelocks cfg env g0 n := by
  induction n with
  | zero => simp [remoteRetryRelocks]
  | succ n ih =>
    rw [Function.iterate_succ_apply', step_rrc, ih]
    unfold remoteRetryRelocks
    rw [List.range_succ, List.filter_append, List.length_append]
    by_cases hb : isRemoteRetryBranch ((step cfg env)^[n] g0) = true
    · simp only [hb, if_true, List.filter_cons, List.filter_nil]
      simp [hb]
      omega
    · simp [hb]

/-- The counter invariant along any trace. -/
theorem rrc_iterate_le (cfg : WConfig) (env : WorkflowEnv) (g0 : GraphState)
    (h0 : g0.st.remoteRetryCount ≤ 3) (n : Nat) :
    ((step cfg env)^[n] g0).st.remoteRetryCount ≤ 3 := by
  induction n with
  | zero => exact h0
  | succ n ih =>
    rw [Function.iterate_succ_apply']
    exact step_rrc_le cfg env _ ih

/-- C4: the retry branch of the route node relocks remote, staying on the
remote tier and incrementing the remote-escalation counter, exactly
while fewer than 3 remote retries have happened; once 3 are exhausted it
sets the tier to local, relocking local only when local has no lock; and
along any run from the initial state the remote retry branch executes at
most 3 times, so at most 3 remote relocks (hence at most 3 remote model
ids) are attempted by that branch in one run. -/
theorem c4_remote_escalation_bound (cfg : WConfig) (env : WorkflowEnv) :
    (∀ g, g.node = WNode.routeNode → 0 < g.st.retryCount →
        g.st.modelTier = some Tier.remoteTier → g.st.remoteRetryCount < 3 →
      (step cfg env g).st.modelTier = some Tier.remoteTier
        ∧ (step cfg env g).st.remoteRetryCount = g.st.remoteRetryCount + 1
        ∧ (step cfg env g).relockTrace = g.relockTrace ++ [Tier.remoteTier])
    ∧ (∀ g, g.node = WNode.routeNode → 0 < g.st.retryCount →
        g.st.modelTier = some Tier.remoteTier → ¬ g.st.remoteRetryCount < 3 →
      (step cfg env g).st.modelTier = some Tier.localTier
        ∧ (step cfg env g).st.remoteRetryCount = g.st.remoteRetryCount
        ∧ (step cfg env g).relockTrace = g.relockTrace
            ++ (if g.sys.lockedLocalModel = none then [Tier.localTier] else []))
    ∧ (∀ query forceModel cfgR sys n,
        remoteRetryRelocks cfg env (initialGraphState query forceModel cfgR sys) n ≤ 3) := by
  refine ⟨?_, ?_, ?_⟩
  · intro g hn hr ht hc
    simp only [step, hn]
    unfold route_node
    rw [if_pos hr, if_pos ⟨ht, hc⟩]
    exact ⟨rfl, rfl, rfl⟩
  · intro g hn hr ht hc
    simp only [step, hn]
    unfold route_node
    rw [if_pos hr,
      if_neg (show ¬(g.st.modelTier = some Tier.remoteTier
        ∧ g.st.remoteRetryCount < 3) from fun hand => hc hand.2),
      if_pos ht]
    by_cases hl : g.sys.lockedLocalModel = none
    · refine ⟨?_, ?_, ?_⟩ <;> simp [hl, doRelock]
    · refine ⟨?_, ?_, ?_⟩ <;> simp [hl, doRelock]
  · intro query forceModel cfgR sys n
    have h0 : (initialGraphState query forceModel cfgR sys).st.remoteRetryCount = 0 := rfl
    have := rrc_iterate cfg env (initialGraphState query forceModel cfgR sys) n
    rw [h0] at this
    have hle := rrc_iterate_le cfg env (initialGraphState query forceModel cfgR sys)
      (by rw [h0]; omega) n
    omega

/-- A sample workflow configuration with the default settings. -/
def sampleWConfig : WConfig :=
  { maxIterations := 10
    preferLocal := true
    configForceModel := none
    memory := ⟨"sliding_window", 20, 1000⟩
    limits := fun _ _ => none }

/-- A sample environment: every invocation fails with a non-empty error,
relocking leaves the lock state unchanged, classification falls back,
and tools return nothing. -/
def sampleEnv : WorkflowEnv :=
  { invokeOutcome := fun _ => AgentOutcome.fail "boom"
    relockResult := fun _ _ p => p
    classifyOutcome := none
    toolMessages := fun _ => [] }

/-- A machine state sitting at the route node of a retry with the remote
tier selected and no remote retries so far. -/
def sampleRetryState : GraphState :=
  { node := WNode.routeNode
    st := { initialAgentState "q" none with retryCount := 1, modelTier := some Tier.remoteTier }
    cfgR := LockConfig.mk true none (some "A") [] [ModelInfo.mk "A" "A"] "A"
    sys := SysState.mk (some "llama") (some "A") (some "llama") none (some "llama") (some "A")
    invokeCount := 0
    relockCount := 0
    toolsCount := 0
    relockTrace := [] }

/-- C4 witness: at a concrete retry state on the remote tier with zero
remote retries, the step relocks remote, stays remote and increments the
counter. -/
theorem c4_remote_escalation_bound_witness :
    sampleRetryState.node = WNode.routeNode
    ∧ 0 < sampleRetryState.st.retryCount
    ∧ sampleRetryState.st.modelTier = some Tier.remoteTier
    ∧ sampleRetryState.st.remoteRetryCount < 3
    ∧ ((step sampleWConfig sampleEnv sampleRetryState).st.modelTier = some Tier.remoteTier
        ∧ (step sampleWConfig sampleEnv sampleRetryState).st.remoteRetryCount
            = sampleRetryState.st.remoteRetryCount + 1
        ∧ (step sampleWConfig sampleEnv sampleRetryState).relockTrace
            = sampleRetryState.relockTrace ++ [Tier.remoteTier]) :=
  ⟨rfl, by decide, rfl, by decide,
    (c4_remote_escalation_bound sampleWConfig sampleEnv).1 sampleRetryState rfl
      (by decide) rfl (by decide)⟩

/-- Counters only count up: no superstep decreases the retry counter or
the tool tally. -/
theorem step_counters_mono (cfg : WConfig) (env : WorkflowEnv) (g : GraphState) :
    g.st.retryCount ≤ (step cfg env g).st.retryCount
    ∧ g.st.toolCallsMade ≤ (step cfg env g).st.toolCallsMade := by
  cases hn : g.node with
  | classifyNode => simp [step, hn, classify_node, applyNode]
  | routeNode =>
    have h := route_node_fields cfg env g
    simp only [step, hn, applyNode_retryCount, applyNode_toolCallsMade]
    rw [h.1, h.2.1]
    exact ⟨le_refl _, le_refl _⟩
  | agentNode =>
    have hle : g.st.retryCount ≤ (agent_node cfg env g).st.retryCount
        ∧ g.st.toolCallsMade ≤ (agent_node cfg env g).st.toolCallsMade := by
      rcases agent_node_spec cfg env g with ⟨e, hst, _⟩ | ⟨resp, _, _, _, hr, _, ht⟩
      · rw [hst]
        exact ⟨Nat.le_succ _, le_refl _⟩
      · refine ⟨le_of_eq hr.symm, ?_⟩
        rw [ht]
        split_ifs
        · exact Nat.le_add_right _ _
        · exact le_refl _
    simp only [step, hn]
    cases should_continue cfg (applyNode g.st (agent_node cfg env g).st) <;>
      simpa using hle
  | toolsNode => simp [step, hn, tools_node]
  | doneEnd => simp [step, hn]
  | doneError => simp [step, hn]

/-- Weight of a node position in the termination measure. -/
def nodeWeight : WNode → Nat
  | WNode.classifyNode => 4
  | WNode.routeNode => 3
  | WNode.agentNode => 2
  | WNode.toolsNode => 3
  | WNode.doneEnd => 0
  | WNode.doneError => 0

/-- The retry budget `max_iterations // 2` of `_should_continue`. -/
def retryBudget (cfg : WConfig) : Nat :=
  cfg.maxIterations / 2

/-- Termination measure: remaining retry budget plus remaining tool
budget, weighted, plus the node weight. -/
def muW (cfg : WConfig) (g : GraphState) : Nat :=
  4 * ((retryBudget cfg + 1 - g.st.retryCount)
      + (cfg.maxIterations - g.st.toolCallsMade))
    + nodeWeight g.node

/-- Projection of the superstep at the agent node, once the continuation
decision is known. -/
theorem step_agent_proj (cfg : WConfig) (env : WorkflowEnv) (g : GraphState)
    (hn : g.node = WNode.agentNode) (d : Decision)
    (hd : should_continue cfg (applyNode g.st (agent_node cfg env g).st) = d) :
    (step cfg env g).node = (match d with
      | Decision.toTools => WNode.toolsNode
      | Decision.toEnd => WNode.doneEnd
      | Decision.toRetry => WNode.routeNode
      | Decision.toError => WNode.doneError)
    ∧ (step cfg env g).st = applyNode g.st (agent_node cfg env g).st := by
  simp only [step, hn, hd]
  cases d <;> exact ⟨rfl, rfl⟩

/-- The superstep at the agent node always installs the reduced agent
state, whatever the decision. -/
theorem step_agent_st (cfg : WConfig) (env : WorkflowEnv) (g : GraphState)
    (hn : g.node = WNode.agentNode) :
    (step cfg env g).st = applyNode g.st (agent_node cfg env g).st := by
  simp only [step, hn]
  cases should_continue cfg (applyNode g.st (agent_node cfg env g).st) <;> rfl

/-- The measure strictly decreases on every non-terminal superstep,
provided failed invocations surface non-empty error strings (Python
exceptions stringify non-trivially; an empty string would be falsy for
the error check). -/
theorem muW_step_lt (cfg : WConfig) (env : WorkflowEnv)
    (henv : ∀ k e, env.invokeOutcome k = AgentOutcome.fail e → e ≠ "")
    (g : GraphState) (h1 : g.node ≠ WNode.doneEnd) (h2 : g.node ≠ WNode.doneError) :
    muW cfg (step cfg env g) < muW cfg g := by
  cases hn : g.node with
  | doneEnd => exact absurd hn h1
  | doneError => exact absurd hn h2
  | classifyNode =>
    have hr : (step cfg env g).st.retryCount = g.st.retryCount := by
      simp [step, hn, classify_node, applyNode]
    have ht : (step cfg env g).st.toolCallsMade = g.st.toolCallsMade := by
      simp [step, hn, classify_node, applyNode]
    have hnode : (step cfg env g).node = WNode.routeNode := by simp [step, hn]
    unfold muW
    rw [hr, ht, hnode, hn]
    simp only [nodeWeight]
    omega
  | routeNode =>
    have hf := route_node_fields cfg env g
    have hr : (step cfg env g).st.retryCount = g.st.retryCount := by
      simp only [step, hn, applyNode_retryCount]
      exact hf.1
    have ht : (step cfg env g).st.toolCallsMade = g.st.toolCallsMade := by
      simp only [step, hn, applyNode_toolCallsMade]
      exact hf.2.1
    have hnode : (step cfg env g).node = WNode.agentNode := by simp [step, hn]
    unfold muW
    rw [hr, ht, hnode, hn]
    simp only [nodeWeight]
    omega
  | toolsNode =>
    have hr : (step cfg env g).st.retryCount = g.st.retryCount := by
      simp [step, hn, tools_node]
    have ht : (step cfg env g).st.toolCallsMade = g.st.toolCallsMade := by
      simp [step, hn, tools_node]
    have hnode : (step cfg env g).node = WNode.agentNode := by simp [step, hn]
    unfold muW
    rw [hr, ht, hnode, hn]
    simp only [nodeWeight]
    omega
  | agentNode =>
    rcases agent_node_spec cfg env g with ⟨e, hst, hor⟩ | ⟨resp, hio, hlast, herr, hretry, _, htools⟩
    · have he : e ≠ "" := by
        rcases hor with hL | hR
        · exact hL
        · exact henv _ _ hR
      have hr2 : (applyNode g.st (agent_node cfg env g).st).retryCount
          = g.st.retryCount + 1 := by
        rw [applyNode_retryCount, hst]
      have ht2 : (applyNode g.st (agent_node cfg env g).st).toolCallsMade
          = g.st.toolCallsMade := by
        rw [applyNode_toolCallsMade, hst]
      have htruthy : pyTruthyStr (applyNode g.st (agent_node cfg env g).st).error = true := by
        rw [applyNode_error, hst]
        simp [pyTruthyStr, he]
      have hd0 : should_continue cfg (applyNode g.st (agent_node cfg env g).st)
          = (if (applyNode g.st (agent_node cfg env g).st).retryCount
                < cfg.maxIterations / 2
             then Decision.toRetry else Decision.toError) := by
        unfold should_continue
        rw [if_pos htruthy]
      by_cases hlt : (applyNode g.st (agent_node cfg env g).st).retryCount
          < cfg.maxIterations / 2
      · rw [if_pos hlt] at hd0
        obtain ⟨hnode, hstq⟩ := step_agent_proj cfg env g hn Decision.toRetry hd0
        have hlt2 : g.st.retryCount + 1 < cfg.maxIterations / 2 := by
          rw [hr2] at hlt
          exact hlt
        unfold muW
        rw [hnode, hstq, hr2, ht2, hn]
        simp only [nodeWeight]
        unfold retryBudget
        omega
      · rw [if_neg hlt] at hd0
        obtain ⟨hnode, hstq⟩ := step_agent_proj cfg env g hn Decision.toError hd0
        unfold muW
        rw [hnode, hstq, hr2, ht2, hn]
        simp only [nodeWeight]
        unfold retryBudget
        omega
    · have hr2 : (applyNode g.st (agent_node cfg env g).st).retryCount
          = g.st.retryCount := by
        rw [applyNode_retryCount]
        exact hretry
      have ht2 : (applyNode g.st (agent_node cfg env g).st).toolCallsMade
          = (if resp.toolCallCount > 0 then g.st.toolCallsMade + resp.toolCallCount
             else g.st.toolCallsMade) := by
        rw [applyNode_toolCallsMade]
        exact htools
      have hfalse : pyTruthyStr (applyNode g.st (agent_node cfg env g).st).error = false := by
        rw [applyNode_error, herr]
        rfl
      have hlast2 : (applyNode g.st (agent_node cfg env g).st).messages.getLast?
          = some resp := by
        rw [applyNode_messages]
        have hne : (agent_node cfg env g).st.messages ≠ [] := by
          intro hnil
          rw [hnil] at hlast
          cases hlast
        rw [List.getLast?_append_of_ne_nil g.st.messages hne]
        exact hlast
      have hd0 : should_continue cfg (applyNode g.st (agent_node cfg env g).st)
          = (if resp.toolCallCount > 0 then
              (if (applyNode g.st (agent_node cfg env g).st).toolCallsMade
                  ≥ cfg.maxIterations
               then Decision.toEnd else Decision.toTools)
             else Decision.toEnd) := by
        unfold should_continue
        rw [hfalse, hlast2]
        simp
      by_cases hrc : resp.toolCallCount > 0
      · rw [if_pos hrc] at hd0
        by_cases hcap : (applyNode g.st (agent_node cfg env g).st).toolCallsMade
            ≥ cfg.maxIterations
        · rw [if_pos hcap] at hd0
          obtain ⟨hnode, hstq⟩ := step_agent_proj cfg env g hn Decision.toEnd hd0
          unfold muW
          rw [hnode, hstq, hr2, ht2, hn, if_pos hrc]
          simp only [nodeWeight]
          omega
        · rw [if_neg hcap] at hd0
          obtain ⟨hnode, hstq⟩ := step_agent_proj cfg env g hn Decision.toTools hd0
          have hcap2 : g.st.toolCallsMade + resp.toolCallCount < cfg.maxIterations := by
            rw [ht2, if_pos hrc] at hcap
            omega
          unfold muW
          rw [hnode, hstq, hr2, ht2, hn, if_pos hrc]
          simp only [nodeWeight]
          omega
      · rw [if_neg hrc] at hd0
        obtain ⟨hnode, hstq⟩ := step_agent_proj cfg env g hn Decision.toEnd hd0
        unfold muW
        rw [hnode, hstq, hr2, ht2, hn, if_neg hrc]
        simp only [nodeWeight]
        omega

/-- A finished run stays finished. -/
theorem iterate_done (cfg : WConfig) (env : WorkflowEnv) (g : GraphState)
    (h : g.node = WNode.doneEnd ∨ g.node = WNode.doneError) (n : Nat) :
    (step cfg env)^[n] g = g := by
  induction n with
  | zero => rfl
  | succ n ih =>
    rw [Function.iterate_succ_apply]
    have hfix : step cfg env g = g := by
      rcases h with h | h <;> simp [step, h]
    rw [hfix]
    exact ih

/-- Once the measure budget is spent, the machine is in a terminal node. -/
theorem terminal_after (cfg : WConfig) (env : WorkflowEnv)
    (henv : ∀ k e, env.invokeOutcome k = AgentOutcome.fail e → e ≠ "") :
    ∀ n g, muW cfg g ≤ n →
      ((step cfg env)^[n] g).node = WNode.doneEnd
        ∨ ((step cfg env)^[n] g).node = WNode.doneError := by
  intro n
  induction n with
  | zero =>
    intro g h
    simp only [Function.iterate_zero, id]
    cases hn : g.node with
    | doneEnd => exact Or.inl rfl
    | doneError => exact Or.inr rfl
    | classifyNode => exfalso; unfold muW at h; rw [hn] at h; simp [nodeWeight] at h
    | routeNode => exfalso; unfold muW at h; rw [hn] at h; simp [nodeWeight] at h
    | agentNode => exfalso; unfold muW at h; rw [hn] at h; simp [nodeWeight] at h
    | toolsNode => exfalso; unfold muW at h; rw [hn] at h; simp [nodeWeight] at h
  | succ n ih =>
    intro g h
    by_cases hE : g.node = WNode.doneEnd
    · left
      rw [iterate_done cfg env g (Or.inl hE)]
      exact hE
    · by_cases hR : g.node = WNode.doneError
      · right
        rw [iterate_done cfg env g (Or.inr hR)]
        exact hR
      · have hlt := muW_step_lt cfg env henv g hE hR
        have hle : muW cfg (step cfg env g) ≤ n := by omega
        rw [Function.iterate_succ_apply]
        exact ih (step cfg env g) hle

/-- C5: under the assumption that every failed invocation stringifies to
a non-empty (truthy) error, the orchestration loop terminates within an
explicit bound from any initial run state; the retry counter and tool
tally never decrease, and each agent execution either succeeds (error
cleared, retry unchanged) or fails (error set, retry incremented); and
the continuation decision retries on a truthy error exactly while
`retry_count < max_iterations // 2` (else it terminates in the error
state), and with pending tool calls continues exactly while
`tool_calls_made < max_iterations`. -/
theorem c5_loop_termination (cfg : WConfig) (env : WorkflowEnv)
    (henv : ∀ k e, env.invokeOutcome k = AgentOutcome.fail e → e ≠ "") :
    (∀ query forceModel cfgR sys,
      ((step cfg env)^[4 * (cfg.maxIterations / 2 + 1 + cfg.maxIterations) + 4]
          (initialGraphState query forceModel cfgR sys)).node = WNode.doneEnd
        ∨ ((step cfg env)^[4 * (cfg.maxIterations / 2 + 1 + cfg.maxIterations) + 4]
            (initialGraphState query forceModel cfgR sys)).node = WNode.doneError)
    ∧ (∀ g, g.st.retryCount ≤ (step cfg env g).st.retryCount
        ∧ g.st.toolCallsMade ≤ (step cfg env g).st.toolCallsMade)
    ∧ (∀ g, g.node = WNode.agentNode →
        ((step cfg env g).st.error = none
            ∧ (step cfg env g).st.retryCount = g.st.retryCount)
        ∨ ((step cfg env g).st.error.isSome = true
            ∧ (step cfg env g).st.retryCount = g.st.retryCount + 1))
    ∧ (∀ st, pyTruthyStr st.error = true →
        (should_continue cfg st = Decision.toRetry ↔ st.retryCount < cfg.maxIterations / 2)
          ∧ (should_continue cfg st = Decision.toError
              ↔ ¬ st.retryCount < cfg.maxIterations / 2))
    ∧ (∀ st last, pyTruthyStr st.error = false → st.messages.getLast? = some last →
        last.toolCallCount > 0 →
        (should_continue cfg st = Decision.toTools
          ↔ st.toolCallsMade < cfg.maxIterations)) := by
  refine ⟨?_, ?_, ?_, ?_, ?_⟩
  · intro query forceModel cfgR sys
    apply terminal_after cfg env henv
    unfold muW retryBudget nodeWeight initialGraphState initialAgentState
    simp
  · intro g
    exact step_counters_mono cfg env g
  · intro g hn
    have hstq := step_agent_st cfg env g hn
    rcases agent_node_spec cfg env g with ⟨e, hst, _⟩ | ⟨resp, _, _, herr, hretry, _, _⟩
    · right
      constructor
      · rw [hstq, applyNode_error, hst]
        rfl
      · rw [hstq, applyNode_retryCount, hst]
    · left
      constructor
      · rw [hstq, applyNode_error]
        exact herr
      · rw [hstq, applyNode_retryCount]
        exact hretry
  · intro st htr
    unfold should_continue
    rw [if_pos htr]
    by_cases hlt : st.retryCount < cfg.maxIterations / 2
    · rw [if_pos hlt]
      simp [hlt]
    · rw [if_neg hlt]
      simp [hlt]
  · intro st last hfalse hlast hcall
    unfold should_continue
    rw [hfalse, hlast]
    simp only [Bool.false_eq_true, if_false]
    rw [if_pos hcall]
    by_cases hcap : st.toolCallsMade ≥ cfg.maxIterations
    · rw [if_pos hcap]
      constructor
      · intro hEq
        cases hEq
      · intro hlt
        exact absurd hlt (by omega)
    · rw [if_neg hcap]
      constructor
      · intro _
        omega
      · intro _
        rfl

/-- C5 witness: with the sample environment (every invocation failing
with the non-empty error string boom) a concrete run from the initial
state is in a terminal node after the bound. -/
theorem c5_loop_termination_witness :
    (∀ k e, sampleEnv.invokeOutcome k = AgentOutcome.fail e → e ≠ "")
    ∧ (((step sampleWConfig sampleEnv)^[4 * (sampleWConfig.maxIterations / 2 + 1
            + sampleWConfig.maxIterations) + 4]
          (initialGraphState "q" none (LockConfig.mk true none none [] [] "g")
            (SysState.mk (some "llama") none (some "llama") none none none))).node
          = WNode.doneEnd
      ∨ ((step sampleWConfig sampleEnv)^[4 * (sampleWConfig.maxIterations / 2 + 1
            + sampleWConfig.maxIterations) + 4]
          (initialGraphState "q" none (LockConfig.mk true none none [] [] "g")
            (SysState.mk (some "llama") none (some "llama") none none none))).node
          = WNode.doneError) :=
  ⟨fun _ e h => by injection h with h2; rw [← h2]; decide,
    (c5_loop_termination sampleWConfig sampleEnv
      (fun _ e h => by injection h with h2; rw [← h2]; decide)).1
      "q" none (LockConfig.mk true none none [] [] "g")
      (SysState.mk (some "llama") none (some "llama") none none none)⟩

/-- C1 counterexample: when the graph is not yet built and lazy
initialization raises, the exception propagates past the `run` boundary
instead of being converted into a result object: `initialize()` is
called before the try block. -/
theorem c1_no_raise_cex :
    run false (Except.error "warmup failed") (Except.ok (initialAgentState "q" none)) "q" none
      = Except.error "warmup failed" := rfl

/-- C1 amended: when the graph is already built, or lazy initialization
succeeds, `run` never raises: a graph-invocation exception is converted
into a returned result carrying the error string and a one-element
message list; but an exception during lazy initialization propagates. -/
theorem c1_no_raise_amended (graphBuilt : Bool) (initOutcome : Except String Unit)
    (graphOutcome : Except String WAgentState) (query : String) (forceModel : Option String)
    (hinit : graphBuilt = true ∨ exceptOk initOutcome = true) :
    exceptOk (run graphBuilt initOutcome graphOutcome query forceModel) = true
    ∧ (∀ e, graphOutcome = Except.error e →
        run graphBuilt initOutcome graphOutcome query forceModel
          = Except.ok { initialAgentState query forceModel with
              error := some e
              messages := [Message.mk Role.ai ("Error: " ++ e) 0] }) := by
  have hok : (if graphBuilt then Except.ok () else initOutcome) = Except.ok () := by
    rcases hinit with h | h
    · rw [h]
      rfl
    · cases graphBuilt with
      | true => rfl
      | false =>
        cases initOutcome with
        | ok u => cases u; rfl
        | error e => simp [exceptOk] at h
  constructor
  · unfold run
    rw [hok]
    cases graphOutcome <;> rfl
  · intro e he
    unfold run
    rw [hok, he]

/-- C1 amended witness: a built graph whose invocation raises returns an
ok result object. -/
theorem c1_no_raise_amended_witness :
    (true = true ∨ exceptOk (Except.error "x" : Except String Unit) = true)
    ∧ exceptOk (run true (Except.error "x") (Except.error "boom") "q" none) = true :=
  ⟨Or.inl rfl,
    (c1_no_raise_amended true (Except.error "x") (Except.error "boom") "q" none
      (Or.inl rfl)).1⟩

end AgentAssistant
